import Mathlib

/-!
Verification of the KPI aggregation, anomaly-detection and loading layer of
the Sustainability-GRI-Agent-Pro repository, as a shallow embedding in Lean.

Numeric values are modelled as rationals (the code computes with Python
floats; all the facts proved here concern exact arithmetic identities of the
formulas, not rounding).  Missing entries of a pandas Series are modelled as
`none`.  IEEE special values produced by division by zero are modelled
explicitly by the type `FVal` below.
-/

namespace GRIAgent

/-- Decidable equality for `Except`, so that concrete runs of the fallible
operations can be checked by evaluation. -/
instance {ε α : Type} [DecidableEq ε] [DecidableEq α] : DecidableEq (Except ε α) := fun a b =>
  match a, b with
  | .ok x, .ok y => if h : x = y then .isTrue (by rw [h]) else .isFalse (by simp [h])
  | .error x, .error y => if h : x = y then .isTrue (by rw [h]) else .isFalse (by simp [h])
  | .ok _, .error _ => .isFalse (by simp)
  | .error _, .ok _ => .isFalse (by simp)

/-- One row of raw spreadsheet data, as read from a sheet.  The `month` and
`unit` fields hold the raw cell text of the `Month` / `Unit` columns; they are
only consulted when the sheet's column list says the column is present. -/
structure RawRow where
  year : Int
  month : String
  value : ℚ
  unit : String
deriving DecidableEq, Repr

/-- One sheet of one spreadsheet file: the list of column names present in the
sheet, and its rows. -/
structure RawSheet where
  cols : List String
  rows : List RawRow
deriving DecidableEq, Repr

/-- One normalized indicator record (a row of the dataframe `load_indicator`
returns): integer year, month normalized to 1..12, numeric value, unit. -/
structure Record where
  year : Int
  month : Nat
  value : ℚ
  unit : String
deriving DecidableEq, Repr

/-! ### Anomaly detector (src/src/ai_agent/agent.py, detect_anomalies) -/

/-- Model of `series.dropna()`: keep the non-missing entries, in order. -/
def dropna : List (Option ℚ) → List ℚ
  | [] => []
  | none :: rest => dropna rest
  | some v :: rest => v :: dropna rest

/-- Model of `s.mean()` for a non-empty series (the empty case is handled at
the call site: pandas returns NaN there, and `detect_anomalies` then takes its
all-false branch). -/
def seriesMean (s : List ℚ) : ℚ := s.sum / (s.length : ℚ)

/-- Model of `s.std(ddof=0) ** 2`: the population variance, denominator `N`.
`detect_anomalies` only ever compares the standard deviation with `0` and uses
it inside `|(v - mu) / sigma| > threshold`, so it suffices to carry `sigma^2`:
`sigma = 0` iff `sigma^2 = 0`, and the z-score comparison is rephrased
square-root-free below. -/
def popVariance (s : List ℚ) : ℚ :=
  ((s.map (fun v => (v - seriesMean s) ^ 2)).sum) / (s.length : ℚ)

/-- Model of `detect_anomalies(series, threshold)` from
src/src/ai_agent/agent.py (the identical copies in ai_agent_old.py and the
dashboard pages have the same body):

```python
s = series.dropna()
mu, sigma = s.mean(), s.std(ddof=0)
if sigma == 0 or np.isnan(sigma):
    return pd.Series(False, index=series.index)
z = (series - mu) / sigma
return z.abs() > threshold
```

`sigma` is NaN exactly when `s` is empty, and `sigma == 0` iff the population
variance is `0`.  In the final comparison, for `sigma > 0` the test
`|(v - mu) / sigma| > threshold` holds iff `threshold < 0` (an absolute value
is never below a negative bound) or `(v - mu)^2 > threshold^2 * sigma^2`,
which is how it is written here, avoiding the irrational `sigma` itself.
A missing entry propagates NaN through `z`, and `NaN > threshold` is false. -/
def detect_anomalies (series : List (Option ℚ)) (threshold : ℚ) : List Bool :=
  let s := dropna series
  if s.length = 0 then
    series.map (fun _ => false)
  else
    let mu := seriesMean s
    let sigma2 := popVariance s
    if sigma2 = 0 then
      series.map (fun _ => false)
    else
      series.map (fun v? =>
        match v? with
        | none => false
        | some v => if threshold < 0 then true else decide ((v - mu) ^ 2 > threshold ^ 2 * sigma2))

/-! ### Yearly aggregation fallback (src/pages/02_KPI_Dashboard.py lines
122-127, and the same code in src/pages/04_GRI_Report_PDF.py lines 235-240) -/

/-- A float value as produced by the pandas `diff` / `pct_change` pipeline:
a finite number, a signed infinity, or NaN.  All finite values occurring here
are exact rationals, so finite floats are modelled by `ℚ`. -/
inductive FVal where
  | num (q : ℚ)
  | posInf
  | negInf
  | nan
deriving DecidableEq, Repr

/-- Model of one entry of `s.pct_change() * 100` with previous value `prev`
and current value `cur`, both present: pandas computes `cur / prev - 1` and
the caller multiplies by 100.  Division by zero follows IEEE float semantics:
`cur / 0` is `+inf`, `-inf` or NaN according to the sign of `cur`, and
subtracting 1 and scaling by 100 leaves the special values unchanged.  For
`prev != 0`, `(cur / prev - 1) * 100` is the exact rational value. -/
def pctChange100 (prev cur : ℚ) : FVal :=
  if prev = 0 then
    if cur > 0 then .posInf else if cur < 0 then .negInf else .nan
  else
    .num ((cur / prev - 1) * 100)

/-- One row of the yearly aggregate dataframe produced by the fallback code:
`total_value` with first-difference and percent-change columns. -/
structure YearlyRow where
  year : Int
  total_value : ℚ
  change_abs : FVal
  change_pct : FVal
deriving DecidableEq, Repr

/-- The distinct years of a table, ascending — model of the group keys of
`df.groupby("Year")`, which pandas returns sorted ascending. -/
def yearsOf (t : List Record) : List Int :=
  List.insertionSort (· ≤ ·) ((t.map Record.year).dedup)

/-- The summed `Value` over all records of a given year — model of
`agg(total_value=("Value", "sum"))` for one group. -/
def yearTotal (t : List Record) (y : Int) : ℚ :=
  ((t.filter (fun r => decide (r.year = y))).map Record.value).sum

/-- Attach the `diff` and `pct_change` columns to the grouped totals,
carrying the previous row's total.  The first row (no previous) gets NaN in
both columns, which is how pandas `diff()` and `pct_change()` fill the first
entry. -/
def attachChanges (prev : Option ℚ) : List (Int × ℚ) → List YearlyRow
  | [] => []
  | (y, tv) :: rest =>
    { year := y, total_value := tv,
      change_abs := match prev with
        | none => .nan
        | some p => .num (tv - p),
      change_pct := match prev with
        | none => .nan
        | some p => pctChange100 p tv } :: attachChanges (some tv) rest

/-- Model of the `compute_yearly_totals` fallback of the dashboard pages:

```python
yearly = df.groupby("Year", as_index=False).agg(total_value=("Value", "sum"))
yearly["change_abs"] = yearly["total_value"].diff()
yearly["change_pct"] = yearly["total_value"].pct_change() * 100
```

(04_GRI_Report_PDF.py uses `groupby("Year").agg(...).reset_index()`, which is
the same computation.) -/
def compute_yearly_totals_fallback (t : List Record) : List YearlyRow :=
  attachChanges none ((yearsOf t).map (fun y => (y, yearTotal t y)))

/-! ### Indicator registry (src/src/ai_agent/config.py) -/

/-- Registry entry for one indicator (src/src/ai_agent/config.py,
`IndicatorMeta`). -/
structure IndicatorMeta where
  kpi_name : String
  gri_code : String
  sheet_name : String
deriving DecidableEq, Repr

/-- The static four-entry indicator registry `INDICATORS` of
src/src/ai_agent/config.py. -/
def INDICATORS : List (String × IndicatorMeta) :=
  [ ("energy", { kpi_name := "Energy Consumption", gri_code := "302", sheet_name := "Energy_Consumption" }),
    ("water", { kpi_name := "Water Usage", gri_code := "303", sheet_name := "Water_Usage" }),
    ("emissions", { kpi_name := "Emissions", gri_code := "305", sheet_name := "Emissions" }),
    ("waste", { kpi_name := "Waste Generation", gri_code := "306", sheet_name := "Waste_Generation" }) ]

/-! ### Month normalization and loading (src/src/ai_agent/data_loader.py) -/

/-- The errors `load_indicator` and its helpers can raise.  The Python code
raises `ValueError` / `FileNotFoundError` with a message; the constructors
carry the data interpolated into the message (for `missingColumns`: the
offending file and the set of missing columns, modelled as a list in the
order of the expected-column list). -/
inductive LoadError where
  | unknownKey (key : String)
  | noFiles
  | missingColumns (file : String) (missing : List String)
  | badMonth (raw : String)
deriving DecidableEq, Repr

/-- The `MONTH_MAP` alias table of src/src/ai_agent/data_loader.py: lowercase
English names and abbreviations plus Arabic month names.  (This variant has
no numeric-string keys; numeric strings are handled by the `int()` fallback.) -/
def MONTH_MAP : List (String × Nat) :=
  [ ("jan", 1), ("january", 1), ("يناير", 1),
    ("feb", 2), ("february", 2), ("فبراير", 2),
    ("mar", 3), ("march", 3), ("مارس", 3),
    ("apr", 4), ("april", 4), ("ابريل", 4),
    ("may", 5), ("مايو", 5),
    ("jun", 6), ("june", 6), ("يونيو", 6),
    ("jul", 7), ("july", 7), ("يوليو", 7),
    ("aug", 8), ("august", 8), ("اغسطس", 8),
    ("sep", 9), ("september", 9), ("سبتمبر", 9),
    ("oct", 10), ("october", 10), ("اكتوبر", 10),
    ("nov", 11), ("november", 11), ("نوفمبر", 11),
    ("dec", 12), ("december", 12), ("ديسمبر", 12) ]

/-- Model of Python `str.lower()`: lower-case every character (non-ASCII
characters such as the Arabic month names are unaffected). -/
def pyLower (s : String) : String := ⟨s.data.map Char.toLower⟩

/-- Model of Python `str.strip()`: drop whitespace from both ends. -/
def pyStrip (s : String) : String :=
  ⟨(((s.data.dropWhile Char.isWhitespace).reverse.dropWhile Char.isWhitespace).reverse)⟩

/-- The zero codepoints of the decimal-digit blocks of Unicode 15.0
(category Nd): every such block is ten consecutive codepoints starting at its
zero digit.  Python's `int()` accepts exactly these digits (in any mix of
scripts), e.g. the Arabic-Indic digits starting at 0x0660. -/
def ND_ZEROS : List Nat :=
  [ 0x0030, 0x0660, 0x06F0, 0x07C0, 0x0966, 0x09E6, 0x0A66, 0x0AE6,
    0x0B66, 0x0BE6, 0x0C66, 0x0CE6, 0x0D66, 0x0DE6, 0x0E50, 0x0ED0,
    0x0F20, 0x1040, 0x1090, 0x17E0, 0x1810, 0x1946, 0x19D0, 0x1A80,
    0x1A90, 0x1B50, 0x1BB0, 0x1C40, 0x1C50, 0xA620, 0xA8D0, 0xA900,
    0xA9D0, 0xA9F0, 0xAA50, 0xABF0, 0xFF10,
    0x104A0, 0x10D30, 0x11066, 0x110F0, 0x11136, 0x111D0, 0x112F0,
    0x11450, 0x114D0, 0x11650, 0x116C0, 0x11730, 0x118E0, 0x11950,
    0x11C50, 0x11D50, 0x11DA0, 0x11F50, 0x16A60, 0x16AC0, 0x16B50,
    0x1D7CE, 0x1D7D8, 0x1D7E2, 0x1D7EC, 0x1D7F6, 0x1E140, 0x1E2F0,
    0x1E4F0, 0x1E950, 0x1FBF0 ]

/-- The decimal value of a Unicode decimal digit (category Nd), `none` for
any other character — the digit classification Python's `int()` uses. -/
def decDigit (c : Char) : Option Nat :=
  match ND_ZEROS.find? (fun z => decide (z ≤ c.toNat ∧ c.toNat ≤ z + 9)) with
  | some z => some (c.toNat - z)
  | none => none

/-- Digit scanner for the body of a Python integer literal.  The flag records
whether the previous character was a digit: an underscore is allowed only
directly after a digit and must be directly followed by another digit, and
the body may neither be empty nor end in an underscore — exactly Python's
underscore rules (`"1_2"` is accepted; `""`, `"_1"`, `"1_"` and `"1__2"` are
rejected). -/
def pyDigitsGo : List Char → Bool → Option (List Nat)
  | [], afterDigit => if afterDigit then some [] else none
  | '_' :: rest, afterDigit => if afterDigit then pyDigitsGo rest false else none
  | c :: rest, _ =>
    match decDigit c with
    | some d => (pyDigitsGo rest true).map (fun ds => d :: ds)
    | none => none

/-- The digit values of the body of a Python integer literal: a non-empty
run of Unicode decimal digits with single underscores allowed strictly
between digits. -/
def pyDigits (l : List Char) : Option (List Nat) :=
  pyDigitsGo l false

/-- The numeric value of a list of digit values. -/
def digitsVal (l : List Nat) : Nat :=
  l.foldl (fun n d => n * 10 + d) 0

/-- Model of Python `int(value)` on an already-stripped string, as used by
`normalize_month`: an optional sign followed by Unicode decimal digits
(category Nd — so e.g. `int("٣") = 3` and `int("١٢") = 12`) with single
underscores permitted between digits (`int("1_2") = 12`); `none` (an
exception in Python, swallowed by the bare `except`) when the string is not
an integer literal. -/
def pyInt (s : String) : Option Int :=
  match s.data with
  | [] => none
  | '-' :: rest => (pyDigits rest).map (fun ds => -(digitsVal ds : Int))
  | '+' :: rest => (pyDigits rest).map (fun ds => (digitsVal ds : Int))
  | l => (pyDigits l).map (fun ds => (digitsVal ds : Int))

/-- Model of `normalize_month` from src/src/ai_agent/data_loader.py:

```python
value = str(value).strip().lower()
if value in MONTH_MAP: return MONTH_MAP[value]
try:
    num = int(value)
    if 1 <= num <= 12: return num
except: pass
raise ValueError(f"... Unrecognized month format: '{value}'")
```

The input is the cell rendered as a string (`str(value)`; in particular the
Python integer `1` arrives as `"1"`). -/
def normalize_month (value : String) : Except LoadError Nat :=
  let v := pyLower (pyStrip value)
  match MONTH_MAP.lookup v with
  | some m => .ok m
  | none =>
    match pyInt v with
    | some num => if 1 ≤ num ∧ num ≤ 12 then .ok num.toNat else .error (.badMonth v)
    | none => .error (.badMonth v)

/-- The required column set `{"Year", "Value"}` of the ai_agent loader. -/
def REQUIRED_COLS : List String := ["Year", "Value"]

/-- The required columns absent from a sheet (the Python `required -
set(df.columns)`, modelled in the order of `REQUIRED_COLS`). -/
def requiredMissing (s : RawSheet) : List String :=
  REQUIRED_COLS.filter (fun c => !s.cols.contains c)

/-- Per-row normalization of one sheet whose schema check passed: apply
`normalize_month` to the `Month` cell when the column is present (pandas
`apply` raises at the first failing cell, left to right), default the month to
1 and the unit to `"unit"` when the respective column is absent. -/
def processRows (cols : List String) : List RawRow → Except LoadError (List Record)
  | [] => .ok []
  | r :: rest =>
    match (if cols.contains "Month" then normalize_month r.month else .ok 1) with
    | .error e => .error e
    | .ok m =>
      match processRows cols rest with
      | .error e => .error e
      | .ok rs =>
        .ok ({ year := r.year, month := m, value := r.value,
               unit := if cols.contains "Unit" then r.unit else "unit" } :: rs)

/-- Per-file body of the ai_agent `load_indicator` loop: fail with the file
name and the missing columns when a required column is absent, otherwise
normalize the rows (defaulting `Unit` and `Month`, coercing `Year`). -/
def processFile (name : String) (s : RawSheet) : Except LoadError (List Record) :=
  if requiredMissing s ≠ [] then
    .error (.missingColumns name (requiredMissing s))
  else
    processRows s.cols s.rows

/-- The loop of `load_indicator` followed by `pd.concat`: process the files
in order, fail-fast at the first failing file, and concatenate the per-file
frames in file order. -/
def concatFiles : List (String × RawSheet) → Except LoadError (List Record)
  | [] => .ok []
  | (name, s) :: rest =>
    match processFile name s with
    | .error e => .error e
    | .ok frame =>
      match concatFiles rest with
      | .error e => .error e
      | .ok more => .ok (frame ++ more)

/-- The sort key order of `data.sort_values(["Year", "Month"])`: lexicographic
by year, then month. -/
def tableLE (a b : Record) : Prop :=
  a.year < b.year ∨ (a.year = b.year ∧ a.month ≤ b.month)

instance : DecidableRel tableLE := fun a b =>
  decidable_of_iff (a.year < b.year ∨ (a.year = b.year ∧ a.month ≤ b.month)) Iff.rfl

instance : IsTrans Record tableLE :=
  ⟨by
    intro a b c hab hbc
    rcases hab with h1 | ⟨h1, h1m⟩ <;> rcases hbc with h2 | ⟨h2, h2m⟩ <;>
      unfold tableLE <;> omega⟩

instance : IsTotal Record tableLE :=
  ⟨by intro a b; unfold tableLE; omega⟩

/-- Model of `data.sort_values(["Year", "Month"])`: a multi-key
`sort_values` in pandas is performed with `lexsort`, which is a stable sort
by the lexicographic key; a stable sort by a total preorder is unique, so it
is modelled by insertion sort on `tableLE`. -/
def sortTable (t : List Record) : List Record :=
  List.insertionSort tableLE t

/-- Model of `load_indicator` from src/src/ai_agent/data_loader.py.  The
`files` argument models the environment: the spreadsheet files discovered by
`discover_files()` in directory order, each paired with its sheet named
`INDICATORS[key].sheet_name` (reading the sheets themselves is I/O outside
this model).

```python
if indicator_key not in INDICATORS: raise ValueError(...)
files = discover_files()          # raises FileNotFoundError if empty
frames = []
for file_path in files:
    df = pd.read_excel(file_path, sheet_name=sheet_name)
    missing = {"Year", "Value"} - set(df.columns)
    if missing: raise ValueError(f"... Missing required columns {missing} ... in file {file_path}")
    if "Unit" not in df.columns: df["Unit"] = "unit"
    if "Month" not in df.columns: df["Month"] = 1
    else: df["Month"] = df["Month"].apply(normalize_month)
    df["Year"] = df["Year"].astype(int)
    frames.append(df)
data = pd.concat(frames, ignore_index=True)
data.sort_values(["Year", "Month"], inplace=True)
return data
``` -/
def load_indicator (key : String) (files : List (String × RawSheet)) :
    Except LoadError (List Record) :=
  if (INDICATORS.lookup key).isNone then .error (.unknownKey key)
  else if files = [] then .error .noFiles
  else
    match concatFiles files with
    | .error e => .error e
    | .ok merged => .ok (sortTable merged)

/-! ### Legacy loader (src/src/data_loader.py), used by
src/pages/03_Data_Explorer.py -/

/-- The legacy `MONTH_MAP` of src/src/data_loader.py: it additionally maps the
numeric strings "1".."9" and "01".."09" directly, before the `int()` fallback. -/
def LEGACY_MONTH_MAP : List (String × Nat) :=
  [ ("jan", 1), ("january", 1), ("01", 1), ("1", 1),
    ("feb", 2), ("february", 2), ("02", 2), ("2", 2),
    ("mar", 3), ("march", 3), ("03", 3), ("3", 3),
    ("apr", 4), ("april", 4), ("04", 4), ("4", 4),
    ("may", 5), ("05", 5), ("5", 5),
    ("jun", 6), ("june", 6), ("06", 6), ("6", 6),
    ("jul", 7), ("july", 7), ("07", 7), ("7", 7),
    ("aug", 8), ("august", 8), ("08", 8), ("8", 8),
    ("sep", 9), ("september", 9), ("09", 9), ("9", 9),
    ("oct", 10), ("october", 10),
    ("nov", 11), ("november", 11),
    ("dec", 12), ("december", 12),
    ("يناير", 1), ("فبراير", 2), ("مارس", 3), ("ابريل", 4),
    ("مايو", 5), ("يونيو", 6), ("يوليو", 7), ("اغسطس", 8),
    ("سبتمبر", 9), ("اكتوبر", 10), ("نوفمبر", 11), ("ديسمبر", 12) ]

/-- Model of `normalize_month` from src/src/data_loader.py: identical shape to
the ai_agent variant, over the legacy alias table. -/
def normalize_month_legacy (value : String) : Except LoadError Nat :=
  let v := pyLower (pyStrip value)
  match LEGACY_MONTH_MAP.lookup v with
  | some m => .ok m
  | none =>
    match pyInt v with
    | some num => if 1 ≤ num ∧ num ≤ 12 then .ok num.toNat else .error (.badMonth v)
    | none => .error (.badMonth v)

/-- The expected column set of the legacy loader: all six columns are
required (`expected_cols = {"Year", "Month", "Indicator", "Value", "Unit",
"Remarks"}` in src/src/data_loader.py line 85). -/
def LEGACY_EXPECTED_COLS : List String :=
  ["Year", "Month", "Indicator", "Value", "Unit", "Remarks"]

/-- The expected columns absent from a sheet under the legacy schema check. -/
def legacyMissing (s : RawSheet) : List String :=
  LEGACY_EXPECTED_COLS.filter (fun c => !s.cols.contains c)

/-- Row normalization of the legacy loader: all columns are known to be
present, so the month is always normalized and the unit taken from the sheet. -/
def processRowsLegacy : List RawRow → Except LoadError (List Record)
  | [] => .ok []
  | r :: rest =>
    match normalize_month_legacy r.month with
    | .error e => .error e
    | .ok m =>
      match processRowsLegacy rest with
      | .error e => .error e
      | .ok rs => .ok ({ year := r.year, month := m, value := r.value, unit := r.unit } :: rs)

/-- The month-only sort key of the legacy per-file `df.sort_values("Month")`. -/
def monthLE (a b : Record) : Prop := a.month ≤ b.month

instance : DecidableRel monthLE := fun a b =>
  decidable_of_iff (a.month ≤ b.month) Iff.rfl

instance : IsTrans Record monthLE :=
  ⟨by intro a b c hab hbc; unfold monthLE at *; omega⟩

instance : IsTotal Record monthLE :=
  ⟨by intro a b; unfold monthLE; omega⟩

/-- What pandas documents for the legacy per-file `df.sort_values("Month")`
with the default single-key quicksort: the result is a permutation of the
rows that is sorted by `Month`.  The relative order of rows with equal
`Month` is implementation-defined — the default quicksort is NOT stable — so
the per-file sort is modelled as a parameter constrained only by this
contract. -/
def MonthSortSpec (msort : List Record → List Record) : Prop :=
  ∀ l : List Record, (msort l).Perm l ∧ (msort l).Sorted monthLE

/-- One outcome the unstable-sort contract permits: sort by month after
reversing the rows, which reverses the relative order of equal-month rows
while still returning a month-sorted permutation. -/
def revMonthSort (l : List Record) : List Record :=
  List.insertionSort monthLE l.reverse

/-- Schema check and row normalization of one file under the legacy loader
(all six expected columns required), before its per-file sort. -/
def processFileLegacyRaw (name : String) (s : RawSheet) : Except LoadError (List Record) :=
  if legacyMissing s ≠ [] then
    .error (.missingColumns name (legacyMissing s))
  else
    processRowsLegacy s.rows

/-- Per-file body of the legacy loader loop: check all six expected columns,
normalize, then sort the single file's rows by `Month`
(`df = df.sort_values("Month")`).  The sort itself is the parameter `msort`,
because pandas' default quicksort leaves the order of equal-month rows
implementation-defined (see `MonthSortSpec`). -/
def processFileLegacy (msort : List Record → List Record) (name : String) (s : RawSheet) :
    Except LoadError (List Record) :=
  match processFileLegacyRaw name s with
  | .error e => .error e
  | .ok rows => .ok (msort rows)

/-- The loop plus `pd.concat` of the legacy loader. -/
def concatFilesLegacy (msort : List Record → List Record) :
    List (String × RawSheet) → Except LoadError (List Record)
  | [] => .ok []
  | (name, s) :: rest =>
    match processFileLegacy msort name s with
    | .error e => .error e
    | .ok frame =>
      match concatFilesLegacy msort rest with
      | .error e => .error e
      | .ok more => .ok (frame ++ more)

/-- The legacy loop without the per-file sorts: the plain row-wise
concatenation of the normalized per-file tables, in input order.  Used to
state which of the merge guarantees survive the unstable per-file sort. -/
def concatFilesLegacyRaw : List (String × RawSheet) → Except LoadError (List Record)
  | [] => .ok []
  | (name, s) :: rest =>
    match processFileLegacyRaw name s with
    | .error e => .error e
    | .ok frame =>
      match concatFilesLegacyRaw rest with
      | .error e => .error e
      | .ok more => .ok (frame ++ more)

/-- Model of `load_indicator` from src/src/data_loader.py, parametrized by
the per-file month sort (see `MonthSortSpec`).  `files` models the
`discover_files()` result: the data-directory files sorted by file name, each
paired with the sheet named by the indicator's registry entry. -/
def load_indicator_legacy (msort : List Record → List Record) (key : String)
    (files : List (String × RawSheet)) : Except LoadError (List Record) :=
  if (INDICATORS.lookup key).isNone then .error (.unknownKey key)
  else if files = [] then .error .noFiles
  else
    match concatFilesLegacy msort files with
    | .error e => .error e
    | .ok merged => .ok (sortTable merged)

/-! ### Forecaster (kpi_service).  The module `src/ai_agent/kpi_service.py` is
imported by the agent and the dashboard pages but is not part of the source
tree; only its callers are.  Its `forecast_next_year` is therefore modelled
from the specification. -/

/-- The largest year of a non-empty yearly series (model of
`yearly["Year"].max()`; the value for the empty list is irrelevant, the
function is used only under the length guard). -/
def maxYear : List (Int × ℚ) → Int
  | [] => 0
  | x :: xs => xs.foldl (fun m p => max m p.1) x.1

/-- Modelled from the spec: `forecast_next_year` lives in
src/ai_agent/kpi_service.py, which is absent from the repository snapshot
(only its import sites exist).  Per spec §4.5 it requires at least 2
historical points and otherwise signals "forecast unavailable" (modelled as
`none`); `next_year = max(year in input) + 1`; the prediction is the ordinary
least squares linear fit of `total_value` against `year`, evaluated at
`next_year`.  The OLS closed form over the points `(x_i, y_i)`:
slope `= (N * Σxy - Σx * Σy) / (N * Σx^2 - (Σx)^2)`, intercept
`= (Σy - slope * Σx) / N`. -/
def forecast_next_year (yearly : List (Int × ℚ)) : Option (Int × ℚ) :=
  if yearly.length < 2 then none
  else
    let n : ℚ := (yearly.length : ℚ)
    let sx : ℚ := (yearly.map (fun p => (p.1 : ℚ))).sum
    let sy : ℚ := (yearly.map (fun p => p.2)).sum
    let sxy : ℚ := (yearly.map (fun p => (p.1 : ℚ) * p.2)).sum
    let sxx : ℚ := (yearly.map (fun p => ((p.1 : ℚ)) ^ 2)).sum
    let slope := (n * sxy - sx * sy) / (n * sxx - sx ^ 2)
    let intercept := (sy - slope * sx) / n
    let ny := maxYear yearly + 1
    some (ny, slope * (ny : ℚ) + intercept)

/-! ### Agent orchestration pieces (src/src/ai_agent/agent.py) -/

/-- Model of the forecast part of `SustainabilityAgentPro.answer`
(src/src/ai_agent/agent.py lines 156-191): the `try/except` around
`forecast_next_year` turns a failure into `(None, None)`, and the context dict
packs

```python
"forecast": {"next_year": next_year,
             "predicted_value": float(pred) if pred else None}
```

`pred` is falsy both when it is `None` (failed forecast) and when it is the
float `0.0`, in which case `predicted_value` becomes `None` as well. -/
def answerForecastField (result : Option (Int × ℚ)) : Option Int × Option ℚ :=
  let next_year : Option Int := result.map Prod.fst
  let pred : Option ℚ := result.map Prod.snd
  (next_year,
    match pred with
    | none => none
    | some p => if p = 0 then none else some p)

/-- A process cache mapping indicator keys to the table last loaded for them;
insertion overrides any earlier entry for the key (Python dict assignment),
lookup finds the most recent insertion. -/
abbrev Cache : Type := List (String × List Record)

/-- Store a table under a key (model of `self._cache[key] = df`). -/
def cacheInsert (c : Cache) (k : String) (v : List Record) : Cache := (k, v) :: c

/-- Find the entry of a key (model of `self._cache[key]` / `key in self._cache`). -/
def cacheFind (c : Cache) (k : String) : Option (List Record) :=
  List.lookup k c

/-- Model of `SustainabilityAgentPro._get_data` from src/src/ai_agent/agent.py
(lines 105-109).  `load` models `load_indicator` reading the files on disk at
call time:

```python
df = load_indicator(key)
self._cache[key] = df
return df
``` -/
def getData (load : String → List Record) (cache : Cache) (key : String) :
    List Record × Cache :=
  let df := load key
  (df, cacheInsert cache key df)

/-- Model of `SustainabilityAgentPro._get_data` from
src/src/ai_agent/ai_agent_old.py (lines 115-123): on a cache hit the stored
table is returned and the loader is not called; on a miss it first requires a
glob match for the key (`candidates`), then loads and caches:

```python
if key not in self._cache:
    candidates = glob.glob(os.path.join(self.data_dir, f"**/*{key}*"), recursive=True)
    if not candidates: raise FileNotFoundError(...)
    df = load_indicator(key)
    self._cache[key] = df
return self._cache[key]
``` -/
def getDataOld (load : String → List Record) (candidates : List String)
    (cache : Cache) (key : String) : Except String (List Record × Cache) :=
  match cacheFind cache key with
  | some df => .ok (df, cache)
  | none =>
    if candidates = [] then
      .error ("No data file found for indicator: " ++ key)
    else
      let df := load key
      .ok (df, cacheInsert cache key df)

/-! ### Concrete instances used by individual claims -/

/-- A record with trivial month and unit, for aggregate-level examples. -/
def mkRec (y : Int) (v : ℚ) : Record := { year := y, month := 1, value := v, unit := "u" }

/-- C4 example table: year 2020 totals to 0, year 2021 to 5. -/
def c4ex : List Record := [mkRec 2020 0, mkRec 2021 5]

/-- C4 witness table. -/
def c4w : List Record := [mkRec 2019 4, mkRec 2018 2]

/-- C8 witness tables: the same three records in two different orders. -/
def c8a : List Record := [mkRec 2020 1, mkRec 2021 2, mkRec 2020 3]

/-- C8 witness tables, second order. -/
def c8b : List Record := [mkRec 2020 3, mkRec 2020 1, mkRec 2021 2]

/-- C2 example: first file's sheet, one 2021 row with value 50. -/
def c2sheetA : RawSheet :=
  { cols := ["Year", "Value"], rows := [{ year := 2021, month := "", value := 50, unit := "" }] }

/-- C2 example: second file's sheet, one 2021 row with value 70. -/
def c2sheetB : RawSheet :=
  { cols := ["Year", "Value"], rows := [{ year := 2021, month := "", value := 70, unit := "" }] }

/-- C2 example: the discovered file list. -/
def c2files : List (String × RawSheet) := [("a.xlsx", c2sheetA), ("b.xlsx", c2sheetB)]

/-- C2 example: the merged table `load_indicator` produces for `c2files`. -/
def c2merged : List Record :=
  [ { year := 2021, month := 1, value := 50, unit := "unit" },
    { year := 2021, month := 1, value := 70, unit := "unit" } ]

/-- C3 counterexample sheet: has the required `Year` and `Value` columns but
none of `Month`, `Indicator`, `Unit`, `Remarks`. -/
def c3sheet : RawSheet :=
  { cols := ["Year", "Value"], rows := [{ year := 2021, month := "", value := 50, unit := "" }] }

/-- C3 witness: a schema-valid sheet. -/
def c3good : RawSheet :=
  { cols := ["Year", "Value"], rows := [{ year := 2020, month := "", value := 7, unit := "" }] }

/-- C3 witness: a sheet missing the required `Value` column. -/
def c3bad : RawSheet :=
  { cols := ["Year"], rows := [] }

/-- C2 counterexample: a single legacy-schema file whose two rows share the
(Year 2021, Month 1) key, with values 50 then 70 in input order. -/
def c2tieSheet : RawSheet :=
  { cols := ["Year", "Month", "Indicator", "Value", "Unit", "Remarks"],
    rows := [ { year := 2021, month := "1", value := 50, unit := "u" },
              { year := 2021, month := "1", value := 70, unit := "u" } ] }

/-- C2 counterexample: the record that entered first (value 50). -/
def c2tie50 : Record := { year := 2021, month := 1, value := 50, unit := "u" }

/-- C2 counterexample: the record that entered second (value 70). -/
def c2tie70 : Record := { year := 2021, month := 1, value := 70, unit := "u" }

/-- C2 legacy example: first file's sheet under the legacy six-column schema,
one 2021 row with value 50. -/
def c2lsheetA : RawSheet :=
  { cols := ["Year", "Month", "Indicator", "Value", "Unit", "Remarks"],
    rows := [{ year := 2021, month := "1", value := 50, unit := "u" }] }

/-- C2 legacy example: second file's sheet, one 2021 row with value 70. -/
def c2lsheetB : RawSheet :=
  { cols := ["Year", "Month", "Indicator", "Value", "Unit", "Remarks"],
    rows := [{ year := 2021, month := "1", value := 70, unit := "u" }] }

/-- C2 legacy example: the discovered file list. -/
def c2lfiles : List (String × RawSheet) := [("a.xlsx", c2lsheetA), ("b.xlsx", c2lsheetB)]

/-- C2 legacy example: the merged table the legacy loader produces for
`c2lfiles`. -/
def c2lmerged : List Record :=
  [ { year := 2021, month := 1, value := 50, unit := "u" },
    { year := 2021, month := 1, value := 70, unit := "u" } ]

/-- C10 counterexample: the stale table sitting in the cache. -/
def staleTable : List Record := [mkRec 2020 3]

/-- C10 counterexample: the table the loader would read from disk. -/
def freshTable : List Record := [mkRec 2020 4]

/-- C10 counterexample: a loader environment returning `freshTable` for every
indicator. -/
def freshLoad : String → List Record := fun _ => freshTable

/-!
## Theorems

Helper lemmas first, then one theorem (plus witness / counterexample) per
claim.
-/

/-- The sum of a list all of whose entries equal `c` is `c` times its length. -/
theorem sum_of_all_eq (s : List ℚ) (c : ℚ) (h : ∀ v ∈ s, v = c) :
    s.sum = c * (s.length : ℚ) := by
  induction s with
  | nil => simp
  | cons a t ih =>
    have ha : a = c := h a (List.mem_cons_self a t)
    have ht : t.sum = c * (t.length : ℚ) := ih (fun v hv => h v (List.mem_cons_of_mem a hv))
    simp [ha, ht]
    ring

/-- The mean of a non-empty constant series is the constant. -/
theorem seriesMean_const (s : List ℚ) (c : ℚ) (h : ∀ v ∈ s, v = c) (hne : s ≠ []) :
    seriesMean s = c := by
  have hlen : (s.length : ℚ) ≠ 0 := by
    have := List.length_pos.mpr hne
    positivity
  unfold seriesMean
  rw [sum_of_all_eq s c h, mul_div_assoc, div_self hlen, mul_one]

/-- A constant series has zero population variance. -/
theorem popVariance_const (s : List ℚ) (c : ℚ) (h : ∀ v ∈ s, v = c) :
    popVariance s = 0 := by
  rcases eq_or_ne s [] with rfl | hne
  · simp [popVariance]
  · unfold popVariance
    have hz : (s.map (fun v => (v - seriesMean s) ^ 2)).sum = 0 := by
      apply List.sum_eq_zero
      intro x hx
      rcases List.mem_map.mp hx with ⟨v, hv, rfl⟩
      rw [h v hv, seriesMean_const s c h hne]
      ring
    rw [hz, zero_div]

/-- C6: for every input sequence whose non-missing values have zero population
standard deviation — all values identical, exactly one value, or no values at
all, captured by "every non-missing value equals one constant" — and every
threshold, `detect_anomalies` returns an all-false flag sequence of the length
of the input, without raising and without dividing by zero (the function is
total). -/
theorem detect_anomalies_degenerate_all_false (series : List (Option ℚ)) (threshold : ℚ)
    (h : ∃ c : ℚ, ∀ v ∈ dropna series, v = c) :
    detect_anomalies series threshold = List.replicate series.length false := by
  obtain ⟨c, hc⟩ := h
  by_cases h0 : (dropna series).length = 0
  · simp [detect_anomalies, h0, List.map_const']
  · have hvar : popVariance (dropna series) = 0 := popVariance_const _ c hc
    simp [detect_anomalies, h0, hvar, List.map_const']

/-- Witness for C6 at a concrete degenerate series. -/
theorem detect_anomalies_degenerate_all_false_witness :
    detect_anomalies [some 5, some 5, none] 2 = List.replicate 3 false :=
  detect_anomalies_degenerate_all_false [some 5, some 5, none] 2 ⟨5, by decide⟩

/-- C1, counterexample: on the spec's scenario `[100, 105, 98, 500, 102]`
with threshold 3.0, `detect_anomalies` does NOT return flags that are true
exactly at the value 500: the population mean is 181 and the population
variance is 25445.6, so the z-score of 500 is 319 / √25445.6 ≈ 2.0, below the
threshold. -/
theorem detect_anomalies_scenario_flags_ne_spec :
    detect_anomalies [some 100, some 105, some 98, some 500, some 102] 3
      ≠ [false, false, false, true, false] := by
  simp only [detect_anomalies, dropna, seriesMean, popVariance]
  norm_num

/-- C1, amended: on the scenario `[100, 105, 98, 500, 102]` with threshold
3.0, `detect_anomalies` returns all-false flags — the outlier itself inflates
the population standard deviation to ≈159.5, so no value (including 500)
exceeds 3 standard deviations from the mean 181. -/
theorem detect_anomalies_scenario_all_false :
    detect_anomalies [some 100, some 105, some 98, some 500, some 102] 3
      = [false, false, false, false, false] := by
  simp only [detect_anomalies, dropna, seriesMean, popVariance]
  norm_num

/-- C9: in the context assembled by `SustainabilityAgentPro.answer`, a
successful forecast whose predicted value is the falsy float `0.0` is
reported with `predicted_value = None`, exactly like a failed forecast
(`float(pred) if pred else None` conflates `pred == 0.0` with `pred is
None`); a non-zero prediction is passed through. -/
theorem answer_forecast_zero_pred_reported_none :
    ∀ ny : Int,
      (answerForecastField (some (ny, 0))).2 = none
      ∧ (answerForecastField none).2 = none
      ∧ (answerForecastField (some (ny, 0))).2 = (answerForecastField none).2
      ∧ ∀ p : ℚ, p ≠ 0 → (answerForecastField (some (ny, p))).2 = some p := by
  intro ny
  refine ⟨by simp [answerForecastField], rfl, by simp [answerForecastField], ?_⟩
  intro p hp
  simp [answerForecastField, hp]

/-- Witness for C9 at concrete inputs: a zero prediction for 2026 is reported
as `None`, while the non-zero prediction 7 is passed through. -/
theorem answer_forecast_zero_pred_reported_none_witness :
    (answerForecastField (some (2026, 0))).2 = none
    ∧ (answerForecastField (some (2026, 7))).2 = some 7 :=
  ⟨(answer_forecast_zero_pred_reported_none 2026).1,
   (answer_forecast_zero_pred_reported_none 2026).2.2.2 7 (by norm_num)⟩

/-- C10, counterexample: `_get_data` of the older agent variant
(src/src/ai_agent/ai_agent_old.py) DOES read its cache — with `staleTable`
cached under "energy" it returns the cached table unchanged and never calls
the loader, even though the loader would return `freshTable`. -/
theorem getDataOld_cache_hit_returns_stale :
    getDataOld freshLoad ["data/energy_2021.xlsx"] [("energy", staleTable)] "energy"
      = .ok (staleTable, [("energy", staleTable)])
    ∧ staleTable ≠ freshLoad "energy" := by
  exact ⟨by decide, by decide⟩

/-- C10, amended claim (true of src/src/ai_agent/agent.py `_get_data`): that
`_get_data` never reads its cache — for every loader environment, cache
contents and key it returns exactly what `load_indicator` returns, the result
is independent of the cache state, and the cache entry for the key is
overwritten with the fresh table. -/
theorem getData_ignores_cache :
    ∀ (load : String → List Record) (cache1 cache2 : Cache) (key : String),
      (getData load cache1 key).1 = load key
      ∧ (getData load cache1 key).1 = (getData load cache2 key).1
      ∧ (getData load cache1 key).2 = cacheInsert cache1 key (load key) :=
  fun _ _ _ _ => ⟨rfl, rfl, rfl⟩

/-- C7: `normalize_month` maps "Jan", "january", "1" (the Python integer `1`
arrives as `str(1) = "1"`), and the Arabic token for January to 1, and raises
the `ValueError`-class "unrecognized month format" error — with no silent
defaulting — for every input that matches neither the lowercased alias table
nor an integer parse in the range 1..12, such as the literal strings "13" and
"foo".  The integer parse is Python's `int()`: Unicode decimal digits of any
script succeed (the Arabic-Indic "٣" gives 3, "١٢" gives 12), as do single
underscores between digits ("1_2" gives 12), while a doubled underscore
("1__2") is not an integer literal and errors. -/
theorem normalize_month_spec :
    normalize_month "Jan" = .ok 1
    ∧ normalize_month "january" = .ok 1
    ∧ normalize_month "1" = .ok 1
    ∧ normalize_month "يناير" = .ok 1
    ∧ normalize_month "٣" = .ok 3
    ∧ normalize_month "١٢" = .ok 12
    ∧ normalize_month "1_2" = .ok 12
    ∧ normalize_month "13" = .error (.badMonth "13")
    ∧ normalize_month "foo" = .error (.badMonth "foo")
    ∧ normalize_month "1__2" = .error (.badMonth "1__2")
    ∧ ∀ s : String,
        MONTH_MAP.lookup (pyLower (pyStrip s)) = none →
        (∀ n : Int, pyInt (pyLower (pyStrip s)) = some n → ¬(1 ≤ n ∧ n ≤ 12)) →
        normalize_month s = .error (.badMonth (pyLower (pyStrip s))) := by
  refine ⟨by decide, by decide, by decide, by decide, by decide, by decide, by decide,
    by decide, by decide, by decide, ?_⟩
  intro s h1 h2
  simp only [normalize_month]
  rw [h1]
  cases hp : pyInt (pyLower (pyStrip s)) with
  | none => rfl
  | some n =>
    have hn := h2 n hp
    simp [hn]

/-- Witness for C7: the out-of-range numeric string "99" is rejected, via the
universal error clause. -/
theorem normalize_month_spec_witness :
    normalize_month "99" = .error (.badMonth "99") :=
  normalize_month_spec.2.2.2.2.2.2.2.2.2.2 "99" (by decide)
    (by
      intro n hn
      have h99 : pyInt (pyLower (pyStrip "99")) = some 99 := by decide
      rw [h99] at hn
      cases hn
      decide)

/-- Folding `max` over the first components starting from `a` yields a value
that is either `a` or attained in the list, is at least `a`, and bounds every
first component of the list. -/
theorem foldl_max_spec (xs : List (Int × ℚ)) :
    ∀ a : Int,
      (xs.foldl (fun m p => max m p.1) a = a
        ∨ ∃ p ∈ xs, xs.foldl (fun m p => max m p.1) a = p.1)
      ∧ a ≤ xs.foldl (fun m p => max m p.1) a
      ∧ ∀ p ∈ xs, p.1 ≤ xs.foldl (fun m p => max m p.1) a := by
  induction xs with
  | nil =>
    intro a
    exact ⟨Or.inl rfl, le_refl a, by simp⟩
  | cons x t ih =>
    intro a
    have h := ih (max a x.1)
    simp only [List.foldl_cons]
    refine ⟨?_, ?_, ?_⟩
    · rcases h.1 with he | ⟨p, hp, he⟩
      · rcases max_cases a x.1 with ⟨hm, _⟩ | ⟨hm, _⟩
        · exact Or.inl (by rw [he, hm])
        · exact Or.inr ⟨x, List.mem_cons_self x t, by rw [he, hm]⟩
      · exact Or.inr ⟨p, List.mem_cons_of_mem x hp, he⟩
    · exact le_trans (le_max_left a x.1) h.2.1
    · intro p hp
      rcases List.mem_cons.mp hp with rfl | hmem
      · exact le_trans (le_max_right a p.1) h.2.1
      · exact h.2.2 p hmem

/-- For a non-empty series, `maxYear` is attained in the list of years and
bounds every year. -/
theorem maxYear_spec (l : List (Int × ℚ)) (h : l ≠ []) :
    maxYear l ∈ l.map Prod.fst ∧ ∀ y ∈ l.map Prod.fst, y ≤ maxYear l := by
  cases l with
  | nil => exact absurd rfl h
  | cons x t =>
    simp only [maxYear]
    have hs := foldl_max_spec t x.1
    constructor
    · rcases hs.1 with he | ⟨p, hp, he⟩
      · rw [he]
        exact List.mem_map_of_mem Prod.fst (List.mem_cons_self x t)
      · rw [he]
        exact List.mem_map_of_mem Prod.fst (List.mem_cons_of_mem x hp)
    · intro y hy
      rcases List.mem_map.mp hy with ⟨p, hp, rfl⟩
      rcases List.mem_cons.mp hp with rfl | hmem
      · exact hs.2.1
      · exact hs.2.2 p hmem

/-- C5: for every yearly series with at least 2 points, `forecast_next_year`
returns `next_year` = (largest year in the input) + 1 together with the
least-squares trend value at that year; on exactly the two points
(2020, 100), (2021, 200) it returns `next_year = 2022` and predicted value
300; and for fewer than 2 points it signals "forecast unavailable" (`none`)
rather than producing a prediction. -/
theorem forecast_next_year_spec :
    forecast_next_year [(2020, 100), (2021, 200)] = some (2022, 300)
    ∧ (∀ l : List (Int × ℚ), l.length < 2 → forecast_next_year l = none)
    ∧ (∀ l : List (Int × ℚ), 2 ≤ l.length →
        ∃ q : ℚ, forecast_next_year l = some (maxYear l + 1, q)
          ∧ maxYear l ∈ l.map Prod.fst
          ∧ ∀ y ∈ l.map Prod.fst, y ≤ maxYear l) := by
  refine ⟨?_, ?_, ?_⟩
  · simp [forecast_next_year, maxYear]
    norm_num
  · intro l hl
    unfold forecast_next_year
    rw [if_pos hl]
  · intro l hl
    have hne : l ≠ [] := by
      intro he
      rw [he] at hl
      simp at hl
    have hm := maxYear_spec l hne
    obtain ⟨q, hq⟩ : ∃ q : ℚ, forecast_next_year l = some (maxYear l + 1, q) := by
      unfold forecast_next_year
      rw [if_neg (by omega)]
      exact ⟨_, rfl⟩
    exact ⟨q, hq, hm.1, hm.2⟩

/-- Witness for C5: a single-point history yields no forecast. -/
theorem forecast_next_year_spec_witness :
    forecast_next_year [(2020, 100)] = none :=
  forecast_next_year_spec.2.1 [(2020, 100)] (by decide)

/-- C8: `compute_yearly_totals` (fallback form) applied to any permutation of
a table's rows yields output identical to the original table's — per-year
sums are order-independent and the output is sorted by year. -/
theorem compute_yearly_totals_perm_invariant (t1 t2 : List Record) (h : t1.Perm t2) :
    compute_yearly_totals_fallback t1 = compute_yearly_totals_fallback t2 := by
  have hyears : yearsOf t1 = yearsOf t2 := by
    unfold yearsOf
    refine List.eq_of_perm_of_sorted ?_ (List.sorted_insertionSort _ _)
      (List.sorted_insertionSort _ _)
    refine ((List.perm_insertionSort _ _).trans ?_).trans
      (List.perm_insertionSort _ _).symm
    exact (h.map Record.year).dedup
  have htot : ∀ y : Int, yearTotal t1 y = yearTotal t2 y := by
    intro y
    unfold yearTotal
    exact List.Perm.sum_eq ((h.filter _).map Record.value)
  unfold compute_yearly_totals_fallback
  rw [hyears]
  have hfun : (fun y => (y, yearTotal t1 y)) = (fun y => (y, yearTotal t2 y)) :=
    funext fun y => by rw [htot y]
  rw [hfun]

/-- Witness for C8 at two concrete orderings of the same three records. -/
theorem compute_yearly_totals_perm_invariant_witness :
    compute_yearly_totals_fallback c8a = compute_yearly_totals_fallback c8b :=
  compute_yearly_totals_perm_invariant c8a c8b (by decide)

/-- Projecting year and total out of `attachChanges` recovers the grouped
totals it was built from, for every carried previous value. -/
theorem attachChanges_pairs :
    ∀ (l : List (Int × ℚ)) (prev : Option ℚ),
      (attachChanges prev l).map (fun r => (r.year, r.total_value)) = l := by
  intro l
  induction l with
  | nil => intro prev; rfl
  | cons x rest ih =>
    intro prev
    obtain ⟨y, tv⟩ := x
    simp [attachChanges, ih (some tv)]

/-- Every pair of consecutive rows produced by `attachChanges` satisfies the
claimed difference and percent-change relations: `change_abs` is the exact
difference of the totals, and `change_pct` is `change_abs / previous * 100`
when the previous total is non-zero, and the IEEE value of the division by
zero otherwise. -/
theorem attachChanges_chain :
    ∀ (l : List (Int × ℚ)) (prev : Option ℚ),
      List.Chain'
        (fun a b =>
          b.change_abs = FVal.num (b.total_value - a.total_value)
          ∧ b.change_pct = (if a.total_value = 0
              then (if b.total_value > 0 then FVal.posInf
                    else if b.total_value < 0 then FVal.negInf else FVal.nan)
              else FVal.num ((b.total_value - a.total_value) / a.total_value * 100)))
        (attachChanges prev l) := by
  intro l
  induction l with
  | nil => intro prev; simp [attachChanges]
  | cons x rest ih =>
    intro prev
    obtain ⟨y, tv⟩ := x
    cases rest with
    | nil => simp [attachChanges]
    | cons x2 r2 =>
      obtain ⟨y2, tv2⟩ := x2
      show List.Chain' _ (_ :: _ :: attachChanges (some tv2) r2)
      rw [List.chain'_cons]
      constructor
      · refine ⟨rfl, ?_⟩
        show pctChange100 tv tv2 = _
        unfold pctChange100
        by_cases h0 : tv = 0
        · simp [h0]
        · rw [if_neg h0, if_neg h0]
          congr 1
          field_simp
      · exact ih (some tv)

/-- C4, counterexample: on a table whose 2020 total is 0 and whose 2021 total
is 5, the fallback `compute_yearly_totals` reports `change_pct` for 2021 as
positive infinity (pandas `pct_change` divides by the zero previous total and
produces `inf`), not as null/absent as the claim demands. -/
theorem compute_yearly_totals_zero_prev_gives_inf :
    compute_yearly_totals_fallback c4ex
      = [ { year := 2020, total_value := 0, change_abs := FVal.nan, change_pct := FVal.nan },
          { year := 2021, total_value := 5, change_abs := FVal.num 5, change_pct := FVal.posInf } ]
    ∧ FVal.posInf ≠ FVal.nan := by
  constructor
  · simp [compute_yearly_totals_fallback, yearsOf, yearTotal, attachChanges, c4ex, mkRec,
      pctChange100, List.dedup, List.insertionSort, List.orderedInsert]
  · decide

/-- C4, amended: for every non-empty table, the fallback
`compute_yearly_totals` returns one row per distinct year sorted strictly
ascending, with each row's `total_value` the per-year sum; `change_abs` /
`change_pct` are NaN on the first row; each later row's `change_abs` is the
exact difference from the previous total, and its `change_pct` equals
`change_abs / previous_total * 100` when the previous total is non-zero —
but when the previous total IS zero, `change_pct` is the IEEE result of the
division (±infinity, or NaN for 0/0), not null.  The function is total, so
it never raises. -/
theorem compute_yearly_totals_fallback_spec (t : List Record) (h : t ≠ []) :
    ((compute_yearly_totals_fallback t).map YearlyRow.year).Sorted (· < ·)
    ∧ (∀ y : Int,
        y ∈ (compute_yearly_totals_fallback t).map YearlyRow.year ↔ y ∈ t.map Record.year)
    ∧ (∀ r ∈ compute_yearly_totals_fallback t, r.total_value = yearTotal t r.year)
    ∧ (∃ r0 rest, compute_yearly_totals_fallback t = r0 :: rest
        ∧ r0.change_abs = FVal.nan ∧ r0.change_pct = FVal.nan)
    ∧ List.Chain'
        (fun a b =>
          b.change_abs = FVal.num (b.total_value - a.total_value)
          ∧ b.change_pct = (if a.total_value = 0
              then (if b.total_value > 0 then FVal.posInf
                    else if b.total_value < 0 then FVal.negInf else FVal.nan)
              else FVal.num ((b.total_value - a.total_value) / a.total_value * 100)))
        (compute_yearly_totals_fallback t) := by
  have hp := attachChanges_pairs ((yearsOf t).map (fun y => (y, yearTotal t y))) none
  have hyear : (compute_yearly_totals_fallback t).map YearlyRow.year = yearsOf t := by
    have h1 : (compute_yearly_totals_fallback t).map YearlyRow.year
        = ((compute_yearly_totals_fallback t).map
            (fun r => (r.year, r.total_value))).map Prod.fst := by
      rw [List.map_map]
      rfl
    rw [h1]
    unfold compute_yearly_totals_fallback
    rw [hp, List.map_map]
    exact List.map_id _
  have hnodup : (yearsOf t).Nodup :=
    (List.perm_insertionSort _ _).nodup_iff.mpr (List.nodup_dedup _)
  have hmemy : ∀ y : Int, y ∈ yearsOf t ↔ y ∈ t.map Record.year := by
    intro y
    unfold yearsOf
    rw [List.mem_insertionSort, List.mem_dedup]
  have hyne : yearsOf t ≠ [] := by
    obtain ⟨r0, t0, rfl⟩ := List.exists_cons_of_ne_nil h
    intro hc
    have hmem : r0.year ∈ yearsOf (r0 :: t0) :=
      (hmemy r0.year).mpr (List.mem_map_of_mem Record.year (List.mem_cons_self r0 t0))
    rw [hc] at hmem
    exact absurd hmem (List.not_mem_nil _)
  refine ⟨?_, ?_, ?_, ?_, ?_⟩
  · rw [hyear]
    exact (List.sorted_insertionSort _ _).lt_of_le hnodup
  · intro y
    rw [hyear]
    exact hmemy y
  · intro r hr
    have hmem : (r.year, r.total_value) ∈ (yearsOf t).map (fun y => (y, yearTotal t y)) := by
      rw [← hp]
      exact List.mem_map_of_mem _ hr
    rcases List.mem_map.mp hmem with ⟨y, _, heq⟩
    have hy : y = r.year := congrArg Prod.fst heq
    have hv : yearTotal t y = r.total_value := congrArg Prod.snd heq
    rw [← hv, hy]
  · cases hys : yearsOf t with
    | nil => exact absurd hys hyne
    | cons y0 ys =>
      have hshape : compute_yearly_totals_fallback t
          = { year := y0, total_value := yearTotal t y0,
              change_abs := FVal.nan, change_pct := FVal.nan }
            :: attachChanges (some (yearTotal t y0)) (ys.map (fun y => (y, yearTotal t y))) := by
        unfold compute_yearly_totals_fallback
        rw [hys]
        rfl
      exact ⟨_, _, hshape, rfl, rfl⟩
  · exact attachChanges_chain _ none

/-- Witness for C4: on the concrete two-year table `c4w` the first aggregate
row carries NaN in both change columns. -/
theorem compute_yearly_totals_fallback_spec_witness :
    ∃ r0 rest, compute_yearly_totals_fallback c4w = r0 :: rest
      ∧ r0.change_abs = FVal.nan ∧ r0.change_pct = FVal.nan :=
  (compute_yearly_totals_fallback_spec c4w (by decide)).2.2.2.1

/-- Stability of the table sort: filtering by any predicate that only holds
on mutually `tableLE`-comparable records (in particular, on records sharing
one (Year, Month) key) commutes with `sortTable`, i.e. such records appear in
the sorted output exactly in their input order. -/
theorem filter_sortTable_stable (p : Record → Bool)
    (hp : ∀ a b : Record, p a = true → p b = true → tableLE a b) (l : List Record) :
    (sortTable l).filter p = l.filter p := by
  have hsub : List.Sublist (l.filter p) l := List.filter_sublist l
  have hpw : (l.filter p).Pairwise tableLE :=
    List.pairwise_of_forall_mem_list (fun a ha b hb =>
      hp a b (List.of_mem_filter ha) (List.of_mem_filter hb))
  have h1 : List.Sublist (l.filter p) (sortTable l) := List.sublist_insertionSort hpw hsub
  have h2 : ((sortTable l).filter p).Perm (l.filter p) := (List.perm_insertionSort _ _).filter p
  have h3 : List.Sublist (l.filter p) ((sortTable l).filter p) := by
    have h4 := h1.filter p
    have h5 : (l.filter p).filter p = l.filter p := by
      simp [List.filter_filter]
    rwa [h5] at h4
  exact (h3.eq_of_length h2.length_eq.symm).symm

/-- Whatever tie order the per-file month sorts choose, the legacy loop's
successful output is a permutation of the raw (unsorted) per-file
concatenation. -/
theorem concatFilesLegacy_perm_raw (msort : List Record → List Record)
    (hms : MonthSortSpec msort) :
    ∀ (files : List (String × RawSheet)) (v : List Record),
      concatFilesLegacy msort files = .ok v →
      ∃ u : List Record, concatFilesLegacyRaw files = .ok u ∧ v.Perm u := by
  intro files
  induction files with
  | nil =>
    intro v h
    have hv := Except.ok.inj h
    subst hv
    exact ⟨[], rfl, List.Perm.refl []⟩
  | cons x rest ih =>
    obtain ⟨name, s⟩ := x
    intro v h
    simp only [concatFilesLegacy] at h
    cases hraw : processFileLegacyRaw name s with
    | error e =>
      rw [show processFileLegacy msort name s = .error e from by
        unfold processFileLegacy
        rw [hraw]] at h
      cases h
    | ok rows =>
      rw [show processFileLegacy msort name s = .ok (msort rows) from by
        unfold processFileLegacy
        rw [hraw]] at h
      cases hrest : concatFilesLegacy msort rest with
      | error e =>
        rw [hrest] at h
        cases h
      | ok more =>
        rw [hrest] at h
        have hv := Except.ok.inj h
        obtain ⟨u2, hu2, hperm⟩ := ih more hrest
        refine ⟨rows ++ u2, ?_, ?_⟩
        · simp only [concatFilesLegacyRaw]
          rw [hraw, hu2]
        · rw [← hv]
          exact List.Perm.append (hms rows).1 hperm

/-- C2, amended: whenever the ai_agent `load_indicator` succeeds, its result
is a permutation of the row-wise concatenation of the per-file tables
(`concatFiles` — nothing deduplicated or dropped), is sorted by (Year, Month)
ascending, and the sort is stable: the records with any one (Year, Month) key
appear exactly as in the concatenation, preserving relative input order.  In
particular, two files each contributing a 2021 row with values 50 and 70 load
to both rows, and the 2021 yearly total over the result is 120.  For the
legacy loader of src/src/data_loader.py, under every per-file month sort
within pandas' contract (`MonthSortSpec`), a successful load is likewise a
(Year, Month)-sorted permutation of the raw per-file concatenation with no
deduplication — the additive 50/70 → 120 merge included — but relative input
order of records sharing a (Year, Month) key is NOT guaranteed, because the
per-file `sort_values("Month")` (line 93) uses the unstable default
quicksort (see the counterexample). -/
theorem load_indicator_merge_sort_spec :
    (∀ (key : String) (files : List (String × RawSheet)) (t : List Record),
      load_indicator key files = .ok t →
      ∃ u : List Record, concatFiles files = .ok u
        ∧ t.Perm u
        ∧ t.Sorted tableLE
        ∧ ∀ (y : Int) (m : Nat),
            t.filter (fun r => decide (r.year = y) && decide (r.month = m))
              = u.filter (fun r => decide (r.year = y) && decide (r.month = m)))
    ∧ load_indicator "energy" c2files = .ok c2merged
    ∧ yearTotal c2merged 2021 = 120
    ∧ (∀ (msort : List Record → List Record), MonthSortSpec msort →
        ∀ (key : String) (files : List (String × RawSheet)) (t : List Record),
        load_indicator_legacy msort key files = .ok t →
        ∃ u : List Record, concatFilesLegacyRaw files = .ok u
          ∧ t.Perm u
          ∧ t.Sorted tableLE)
    ∧ load_indicator_legacy (List.insertionSort monthLE) "energy" c2lfiles = .ok c2lmerged
    ∧ yearTotal c2lmerged 2021 = 120 := by
  refine ⟨?_, by decide, ?_, ?_, by decide, ?_⟩
  · intro key files t h
    unfold load_indicator at h
    by_cases hk : (INDICATORS.lookup key).isNone
    · rw [if_pos hk] at h
      cases h
    · rw [if_neg hk] at h
      by_cases hf : files = []
      · rw [if_pos hf] at h
        cases h
      · rw [if_neg hf] at h
        cases hc : concatFiles files with
        | error e =>
          rw [hc] at h
          cases h
        | ok u =>
          rw [hc] at h
          have ht : t = sortTable u := (Except.ok.inj h).symm
          subst ht
          refine ⟨u, rfl, List.perm_insertionSort _ _, List.sorted_insertionSort _ _, ?_⟩
          intro y m
          refine filter_sortTable_stable _ ?_ u
          intro a b ha hb
          simp only [Bool.and_eq_true, decide_eq_true_eq] at ha hb
          exact Or.inr ⟨by rw [ha.1, hb.1], by rw [ha.2, hb.2]⟩
  · norm_num [yearTotal, c2merged]
  · intro msort hms key files t h
    unfold load_indicator_legacy at h
    by_cases hk : (INDICATORS.lookup key).isNone
    · rw [if_pos hk] at h
      cases h
    · rw [if_neg hk] at h
      by_cases hf : files = []
      · rw [if_pos hf] at h
        cases h
      · rw [if_neg hf] at h
        cases hc : concatFilesLegacy msort files with
        | error e =>
          rw [hc] at h
          cases h
        | ok v =>
          rw [hc] at h
          have ht : t = sortTable v := (Except.ok.inj h).symm
          subst ht
          obtain ⟨u, hu, hperm⟩ := concatFilesLegacy_perm_raw msort hms files v hc
          exact ⟨u, hu, (List.perm_insertionSort _ _).trans hperm,
            List.sorted_insertionSort _ _⟩
  · norm_num [yearTotal, c2lmerged]

/-- Witness for C2: the merge/sort/stability properties at the concrete
two-file input, obtained by applying the general clause. -/
theorem load_indicator_merge_sort_spec_witness :
    ∃ u : List Record, concatFiles c2files = .ok u
      ∧ c2merged.Perm u
      ∧ c2merged.Sorted tableLE
      ∧ ∀ (y : Int) (m : Nat),
          c2merged.filter (fun r => decide (r.year = y) && decide (r.month = m))
            = u.filter (fun r => decide (r.year = y) && decide (r.month = m)) :=
  load_indicator_merge_sort_spec.1 "energy" c2files c2merged (by decide)

/-- C2, counterexample: the legacy loader's per-file `sort_values("Month")`
(src/src/data_loader.py line 93, pandas default quicksort) guarantees only a
month-sorted permutation, not a stable one.  `revMonthSort` satisfies that
contract (`MonthSortSpec`), yet under it the two records sharing the
(2021, 1) key — entered with values 50 then 70 — come out of
`load_indicator_legacy` in the order 70 then 50: the claim's stability clause
("records with the same (Year, Month) keep their relative input order") is
not guaranteed by the legacy loader. -/
theorem legacy_month_sort_breaks_stability :
    MonthSortSpec revMonthSort
    ∧ load_indicator_legacy revMonthSort "energy" [("f.xlsx", c2tieSheet)]
        = .ok [c2tie70, c2tie50]
    ∧ c2tieSheet.rows.map RawRow.value = [50, 70]
    ∧ List.map Record.value [c2tie70, c2tie50] = [70, 50] := by
  refine ⟨?_, by decide, by decide, by decide⟩
  intro l
  exact ⟨(List.perm_insertionSort _ _).trans (List.reverse_perm l),
    List.sorted_insertionSort _ _⟩

/-- Every error of `normalize_month` is an unrecognized-month error. -/
theorem normalize_month_error (v : String) (e : LoadError)
    (h : normalize_month v = .error e) : ∃ raw, e = .badMonth raw := by
  simp only [normalize_month] at h
  split at h
  · cases h
  · split at h
    · split at h
      · cases h
      · exact ⟨_, (Except.error.inj h).symm⟩
    · exact ⟨_, (Except.error.inj h).symm⟩

/-- Every error of the row-normalization loop is an unrecognized-month error
(the schema check happens before it, in `processFile`). -/
theorem processRows_error_badMonth (cols : List String) :
    ∀ (rows : List RawRow) (e : LoadError),
      processRows cols rows = .error e → ∃ raw, e = .badMonth raw := by
  intro rows
  induction rows with
  | nil =>
    intro e h
    cases h
  | cons r rest ih =>
    intro e h
    by_cases hmonth : cols.contains "Month"
    · simp only [processRows, hmonth, if_true] at h
      cases hm : normalize_month r.month with
      | error e2 =>
        rw [hm] at h
        obtain ⟨raw, hraw⟩ := normalize_month_error _ _ hm
        exact ⟨raw, by rw [← Except.error.inj h, hraw]⟩
      | ok m =>
        rw [hm] at h
        cases hrest : processRows cols rest with
        | error e3 =>
          rw [hrest] at h
          obtain ⟨raw, hraw⟩ := ih e3 hrest
          exact ⟨raw, by rw [← Except.error.inj h, hraw]⟩
        | ok rs =>
          rw [hrest] at h
          cases h
    · simp only [processRows, hmonth, if_false, Bool.false_eq_true] at h
      cases hrest : processRows cols rest with
      | error e3 =>
        rw [hrest] at h
        obtain ⟨raw, hraw⟩ := ih e3 hrest
        exact ⟨raw, by rw [← Except.error.inj h, hraw]⟩
      | ok rs =>
        rw [hrest] at h
        cases h

/-- A `missingColumns` error of `processFile` names exactly that file and its
computed missing-column set, which is non-empty. -/
theorem processFile_error_missing (name : String) (s : RawSheet) (f : String)
    (m : List String) (h : processFile name s = .error (.missingColumns f m)) :
    f = name ∧ m = requiredMissing s ∧ requiredMissing s ≠ [] := by
  unfold processFile at h
  by_cases hr : requiredMissing s ≠ []
  · rw [if_pos hr] at h
    have h2 := Except.error.inj h
    obtain ⟨h3, h4⟩ := LoadError.missingColumns.inj h2
    exact ⟨h3.symm, h4.symm, hr⟩
  · rw [if_neg hr] at h
    obtain ⟨raw, hraw⟩ := processRows_error_badMonth s.cols s.rows _ h
    cases hraw

/-- A `missingColumns` error of the multi-file loop comes from a file in the
list whose missing-column set is exactly the reported one. -/
theorem concatFiles_error_missing :
    ∀ (files : List (String × RawSheet)) (f : String) (m : List String),
      concatFiles files = .error (.missingColumns f m) →
      ∃ s, (f, s) ∈ files ∧ requiredMissing s = m ∧ m ≠ [] := by
  intro files
  induction files with
  | nil =>
    intro f m h
    cases h
  | cons x rest ih =>
    obtain ⟨name, sh⟩ := x
    intro f m h
    simp only [concatFiles] at h
    cases hp : processFile name sh with
    | error e =>
      rw [hp] at h
      rw [Except.error.inj h] at hp
      obtain ⟨h1, h2, h3⟩ := processFile_error_missing name sh f m hp
      refine ⟨sh, ?_, h2.symm, by rw [h2]; exact h3⟩
      rw [h1]
      exact List.mem_cons_self _ _
    | ok frame =>
      rw [hp] at h
      cases hc : concatFiles rest with
      | error e2 =>
        rw [hc] at h
        rw [Except.error.inj h] at hc
        obtain ⟨s, hmem, hmiss, hne⟩ := ih f m hc
        exact ⟨s, List.mem_cons_of_mem _ hmem, hmiss, hne⟩
      | ok more =>
        rw [hc] at h
        cases h

/-- If every file processes successfully the multi-file loop succeeds. -/
theorem concatFiles_ok_of_forall :
    ∀ files : List (String × RawSheet),
      (∀ f ∈ files, ∃ rows, processFile f.1 f.2 = .ok rows) →
      ∃ u, concatFiles files = .ok u := by
  intro files
  induction files with
  | nil =>
    intro _
    exact ⟨[], rfl⟩
  | cons x rest ih =>
    intro hall
    obtain ⟨frame, hf⟩ := hall x (List.mem_cons_self x rest)
    obtain ⟨more, hm⟩ := ih (fun f hf2 => hall f (List.mem_cons_of_mem x hf2))
    obtain ⟨name, sh⟩ := x
    refine ⟨frame ++ more, ?_⟩
    simp only [concatFiles]
    rw [hf, hm]

/-- A schema failure aborts the loop at the first offending file, whatever
files follow. -/
theorem concatFiles_append_error :
    ∀ (pre : List (String × RawSheet)) (name : String) (s : RawSheet)
      (rest : List (String × RawSheet)),
      (∀ f ∈ pre, ∃ rows, processFile f.1 f.2 = .ok rows) →
      requiredMissing s ≠ [] →
      concatFiles (pre ++ (name, s) :: rest)
        = .error (.missingColumns name (requiredMissing s)) := by
  intro pre
  induction pre with
  | nil =>
    intro name s rest _ hmiss
    have hp : processFile name s = .error (.missingColumns name (requiredMissing s)) := by
      unfold processFile
      rw [if_pos hmiss]
    simp only [List.nil_append, concatFiles]
    rw [hp]
  | cons x pre2 ih =>
    intro name s rest hall hmiss
    obtain ⟨frame, hf⟩ := hall x (List.mem_cons_self _ _)
    obtain ⟨xn, xs⟩ := x
    simp only [List.cons_append, concatFiles, List.append_eq]
    rw [hf, ih name s rest (fun f hf2 => hall f (List.mem_cons_of_mem _ hf2)) hmiss]

/-- When the `Month` column is absent the row loop defaults every month to 1
(and `Unit` to "unit" when that column is absent too) and never fails. -/
theorem processRows_no_month (cols : List String) (hm : cols.contains "Month" = false) :
    ∀ rows : List RawRow,
      processRows cols rows = .ok (rows.map (fun r =>
        { year := r.year, month := 1, value := r.value,
          unit := if cols.contains "Unit" then r.unit else "unit" })) := by
  intro rows
  induction rows with
  | nil => rfl
  | cons r rest ih =>
    simp only [processRows, hm, Bool.false_eq_true, if_false]
    rw [ih]
    simp

/-- C3, amended: for the ai_agent loader (src/src/ai_agent/data_loader.py),
`load_indicator` fails with an error naming the offending file and the
missing columns exactly when some file's sheet lacks a column of the required
set {Year, Value}; the columns Month, Indicator, Unit and Remarks are
optional there (absence is defaulted, not an error); and a schema failure in
any single file aborts the entire multi-file load, even when every other file
is valid.  The legacy loader in src/src/data_loader.py instead requires all
of {Year, Month, Indicator, Value, Unit, Remarks} (see the counterexample). -/
theorem load_indicator_schema_spec :
    (∀ s : RawSheet, requiredMissing s = [] ↔ ("Year" ∈ s.cols ∧ "Value" ∈ s.cols))
    ∧ (∀ (name : String) (s : RawSheet),
        requiredMissing s = [] → s.cols.contains "Month" = false →
        processFile name s
          = .ok (s.rows.map (fun r =>
              { year := r.year, month := 1, value := r.value,
                unit := if s.cols.contains "Unit" then r.unit else "unit" })))
    ∧ (∀ (key : String) (pre : List (String × RawSheet)) (name : String) (s : RawSheet)
        (rest : List (String × RawSheet)),
        (INDICATORS.lookup key).isSome →
        (∀ f ∈ pre, ∃ rows, processFile f.1 f.2 = .ok rows) →
        requiredMissing s ≠ [] →
        load_indicator key (pre ++ (name, s) :: rest)
          = .error (.missingColumns name (requiredMissing s)))
    ∧ (∀ (key : String) (files : List (String × RawSheet)),
        (INDICATORS.lookup key).isSome → files ≠ [] →
        (∀ f ∈ files, ∃ rows, processFile f.1 f.2 = .ok rows) →
        ∃ t, load_indicator key files = .ok t)
    ∧ (∀ (key : String) (files : List (String × RawSheet)) (f : String) (m : List String),
        load_indicator key files = .error (.missingColumns f m) →
        ∃ s, (f, s) ∈ files ∧ requiredMissing s = m ∧ m ≠ []) := by
  refine ⟨?_, ?_, ?_, ?_, ?_⟩
  · intro s
    rw [requiredMissing, List.filter_eq_nil_iff]
    simp [REQUIRED_COLS]
  · intro name s hreq hm
    unfold processFile
    rw [if_neg (by rw [hreq]; exact fun hc => hc rfl)]
    exact processRows_no_month s.cols hm s.rows
  · intro key pre name s rest hk hall hmiss
    unfold load_indicator
    rw [if_neg (by rw [Option.isNone_iff_eq_none]; intro hc; rw [hc] at hk; cases hk)]
    rw [if_neg (by
      intro hc
      rcases pre with _ | ⟨x, pre2⟩ <;> simp at hc)]
    rw [concatFiles_append_error pre name s rest hall hmiss]
  · intro key files hk hne hall
    obtain ⟨u, hu⟩ := concatFiles_ok_of_forall files hall
    refine ⟨sortTable u, ?_⟩
    unfold load_indicator
    rw [if_neg (by rw [Option.isNone_iff_eq_none]; intro hc; rw [hc] at hk; cases hk)]
    rw [if_neg hne, hu]
  · intro key files f m h
    unfold load_indicator at h
    by_cases hk : (INDICATORS.lookup key).isNone
    · rw [if_pos hk] at h
      cases Except.error.inj h
    · rw [if_neg hk] at h
      by_cases hf : files = []
      · rw [if_pos hf] at h
        cases Except.error.inj h
      · rw [if_neg hf] at h
        cases hc : concatFiles files with
        | error e =>
          rw [hc] at h
          rw [Except.error.inj h] at hc
          exact concatFiles_error_missing files f m hc
        | ok u =>
          rw [hc] at h
          cases h

/-- Witness for C3: with a valid first file, a second file missing the
required `Value` column aborts the whole two-file load with an error naming
that file and that column. -/
theorem load_indicator_schema_spec_witness :
    load_indicator "energy" [("a.xlsx", c3good), ("b.xlsx", c3bad)]
      = .error (.missingColumns "b.xlsx" ["Value"]) :=
  load_indicator_schema_spec.2.2.1 "energy" [("a.xlsx", c3good)] "b.xlsx" c3bad []
    (by decide)
    (fun f hf => by
      rcases List.mem_singleton.mp hf with rfl
      exact ⟨[{ year := 2020, month := 1, value := 7, unit := "unit" }], by decide⟩)
    (by decide)

/-- C3, counterexample: the legacy loader (src/src/data_loader.py), also
cited by the claim, treats Month, Indicator, Unit and Remarks as REQUIRED: on
a file having only the {Year, Value} columns it fails naming those four
columns, while the ai_agent loader loads the same input fine with the
defaults applied. -/
theorem load_indicator_legacy_month_required :
    load_indicator_legacy (List.insertionSort monthLE) "energy" [("f1.xlsx", c3sheet)]
      = .error (.missingColumns "f1.xlsx" ["Month", "Indicator", "Unit", "Remarks"])
    ∧ load_indicator "energy" [("f1.xlsx", c3sheet)]
      = .ok [{ year := 2021, month := 1, value := 50, unit := "unit" }] :=
  ⟨by decide, by decide⟩

end GRIAgent
